import Mathlib

/-!
# Verification of the ES-Writer concurrent question-answering pipeline

Shallow embedding of `src/backend/ask_ai.go` (and the collaborator wiring in
`src/backend/main.go`).  The file `ask_ai.go` contains two provider variants of
the same pipeline: a Gemini-based one (`sendToAi` via
`http.NewRequestWithContext`, handler with token auth and profile lookup) and a
Bedrock-based one (`sendToAi` via `bedrockruntime.InvokeModel` with
`context.TODO()`, handler without auth and with a hardcoded bio).  Both are
embedded below; external effects (token resolution, the database lookup, JSON
body decoding, HTML cleaning and question extraction, and the network itself)
are passed in as parameters, exactly at the call sites where the Go code invokes
them.
-/

namespace ESWriter

/-- Go struct `UserProfile { Bio, Experience, Projects string }`. -/
structure UserProfile where
  bio : String
  experience : String
  projects : String
deriving Repr, DecidableEq, Inhabited

/-- The anonymous Go struct `Answer { Question, Answer string }` declared inside
`processQuestionsWithAI`; JSON shape `{"question": ..., "answer": ...}`. -/
structure Answer where
  question : String
  answer : String
deriving Repr, DecidableEq, Inhabited

/-- Go zero value of `Answer`, as produced by `make([]Answer, len(questions))`. -/
def defaultAnswer : Answer := ⟨"", ""⟩

/-- Prompt composer `generatePromptWithBio` (Gemini variant, ask_ai.go lines
126-129): combines the three profile fields with `fmt.Sprintf` and appends the
question. -/
def generatePromptWithBio (profile : UserProfile) (question : String) : String :=
  let combinedBio :=
    profile.bio ++ "です。今までの経験は" ++ profile.experience ++
      "です。これまでに作ってきた作品は" ++ profile.projects
  "あなたの経歴は" ++ combinedBio ++
    "です。以下の質問に答えてください。簡潔かつ具体的に記述し、#や*,-などは使用せずに平文で解答部分のみを出力してください。\n" ++
    question

/-!
## Fan-out orchestrator (ask_ai.go lines 178-218)

`answers := make([]Answer, len(questions))` allocates the result array filled
with zero values; for each pair `(i, question)` a goroutine computes the prompt,
calls `sendToAi`, and on success writes `answers[i] = Answer{Question: q,
Answer: answer}` — on error it returns without writing, leaving slot `i` at the
zero value.  The outcome of the `sendToAi` call of task `i` is abstracted as
`complete i prompt : Except String String` (the network may answer each task
differently).  Slot writes are modelled explicitly as a list of `(index, value)`
pairs so that write exclusivity and order-independence can be stated.
-/

/-- What the goroutine for `(i, q)` writes to its slot: `some` on success of the
completion call, `none` when the task hit `err != nil` and returned early. -/
def taskWrite (profile : UserProfile) (complete : Nat → String → Except String String)
    (i : Nat) (q : String) : Option Answer :=
  match complete i (generatePromptWithBio profile q) with
  | Except.error _ => none
  | Except.ok answer => some ⟨q, answer⟩

/-- The slot writes performed by all spawned tasks (listed in spawn order,
`for i, question := range questions`; the actual interleaving is arbitrary, see
`applyWrites_perm` below). -/
def taskWrites (questions : List String) (profile : UserProfile)
    (complete : Nat → String → Except String String) : List (Nat × Answer) :=
  questions.enum.filterMap fun iq =>
    (taskWrite profile complete iq.1 iq.2).map fun a => (iq.1, a)

/-- Apply a sequence of slot writes (`answers[i] = v`) to the answer array. -/
def applyWrites (init : List Answer) (writes : List (Nat × Answer)) : List Answer :=
  writes.foldl (fun acc w => acc.set w.1 w.2) init

/-- The aggregated answer array handed to `json.NewEncoder(w).Encode(answers)`:
zero-valued array of length `len(questions)`, after all task writes landed. -/
def processAnswers (questions : List String) (profile : UserProfile)
    (complete : Nat → String → Except String String) : List Answer :=
  applyWrites (List.replicate questions.length defaultAnswer)
    (taskWrites questions profile complete)

/-- The value slot `i` ends up holding: the task's write on success, the Go zero
value when the task returned early on error. -/
def slotValue (profile : UserProfile) (complete : Nat → String → Except String String)
    (i : Nat) (q : String) : Answer :=
  match taskWrite profile complete i q with
  | some a => a
  | none => defaultAnswer

/-! ### Pointwise semantics of the disjoint slot writes -/

theorem applyWrites_length (ws : List (Nat × Answer)) (init : List Answer) :
    (applyWrites init ws).length = init.length := by
  induction ws generalizing init with
  | nil => rfl
  | cons w rest ih =>
    show (applyWrites (init.set w.1 w.2) rest).length = init.length
    rw [ih]
    exact List.length_set ..

theorem applyWrites_getElem?_of_not_mem (ws : List (Nat × Answer)) (init : List Answer)
    (i : Nat) (h : i ∉ ws.map Prod.fst) :
    (applyWrites init ws)[i]? = init[i]? := by
  induction ws generalizing init with
  | nil => rfl
  | cons w rest ih =>
    simp only [List.map_cons, List.mem_cons, not_or] at h
    show (applyWrites (init.set w.1 w.2) rest)[i]? = init[i]?
    rw [ih _ h.2]
    exact List.getElem?_set_ne fun e => h.1 e.symm

theorem applyWrites_getElem?_of_mem (ws : List (Nat × Answer)) (init : List Answer)
    (i : Nat) (v : Answer) (hnd : (ws.map Prod.fst).Nodup) (hm : (i, v) ∈ ws)
    (hi : i < init.length) :
    (applyWrites init ws)[i]? = some v := by
  induction ws generalizing init with
  | nil => cases hm
  | cons w rest ih =>
    simp only [List.map_cons, List.nodup_cons] at hnd
    rcases List.mem_cons.1 hm with hw | hm'
    · subst hw
      show (applyWrites (init.set i v) rest)[i]? = some v
      rw [applyWrites_getElem?_of_not_mem rest _ i hnd.1]
      exact List.getElem?_set_eq_of_lt v hi
    · show (applyWrites (init.set w.1 w.2) rest)[i]? = some v
      exact ih _ hnd.2 hm' (by rw [List.length_set]; exact hi)

/-- A `filterMap` that can only keep (a function of) its input element is a
sublist of the corresponding `map`. -/
theorem filterMap_sublist_map {α β : Type} (f : α → Option β) (g : α → β) (l : List α)
    (h : ∀ a b, b ∈ f a → b = g a) : List.Sublist (l.filterMap f) (l.map g) := by
  induction l with
  | nil => simp
  | cons a t ih =>
    rw [List.filterMap_cons, List.map_cons]
    cases hfa : f a with
    | none => exact ih.cons (g a)
    | some b =>
      have hba : b = g a := h a b (by simp [hfa])
      subst hba
      exact List.Sublist.cons₂ _ ih

theorem taskWrites_keys_nodup (qs : List String) (p : UserProfile)
    (c : Nat → String → Except String String) :
    ((taskWrites qs p c).map Prod.fst).Nodup := by
  have hsub : List.Sublist ((taskWrites qs p c).map Prod.fst) (qs.enum.map Prod.fst) := by
    rw [taskWrites, List.map_filterMap]
    refine filterMap_sublist_map _ _ _ ?_
    intro iq b hb
    simp only [Option.map_map, Option.mem_def, Option.map_eq_some'] at hb
    obtain ⟨a, -, ha⟩ := hb
    exact ha.symm
  rw [List.enum_map_fst] at hsub
  exact hsub.nodup (List.nodup_range _)

theorem mem_taskWrites (qs : List String) (p : UserProfile)
    (c : Nat → String → Except String String) (i : Nat) (a : Answer) :
    (i, a) ∈ taskWrites qs p c ↔ ∃ q, qs[i]? = some q ∧ taskWrite p c i q = some a := by
  simp only [taskWrites, List.mem_filterMap]
  constructor
  · rintro ⟨⟨j, q⟩, hjq, hf⟩
    obtain ⟨b, hb, he⟩ := Option.map_eq_some'.1 hf
    have h1 : j = i := congrArg Prod.fst he
    have h2 : b = a := congrArg Prod.snd he
    subst h1; subst h2
    exact ⟨q, List.mk_mem_enum_iff_getElem?.1 hjq, hb⟩
  · rintro ⟨q, hq, hw⟩
    exact ⟨(i, q), List.mk_mem_enum_iff_getElem?.2 hq, by rw [hw]; rfl⟩

/-- Pointwise characterization of the aggregated array: slot `i` holds exactly
what task `i` produced — the completion text on success, the zero value on
failure.  Sibling outcomes do not appear in the expression for slot `i`. -/
theorem processAnswers_getElem? (qs : List String) (p : UserProfile)
    (c : Nat → String → Except String String) (i : Nat) (h : i < qs.length) :
    (processAnswers qs p c)[i]? = some (slotValue p c i (qs.get ⟨i, h⟩)) := by
  have hq : qs[i]? = some (qs.get ⟨i, h⟩) := List.getElem?_eq_getElem h
  rw [processAnswers]
  cases hw : taskWrite p c i (qs.get ⟨i, h⟩) with
  | some a =>
    rw [applyWrites_getElem?_of_mem _ _ i a (taskWrites_keys_nodup qs p c)
      ((mem_taskWrites qs p c i a).2 ⟨_, hq, hw⟩) (by rw [List.length_replicate]; exact h)]
    rw [slotValue, hw]
  | none =>
    rw [applyWrites_getElem?_of_not_mem _ _ i ?_]
    · rw [List.getElem?_replicate_of_lt h, slotValue, hw]
    · intro hmem
      obtain ⟨⟨j, v⟩, hjv, hj⟩ := List.mem_map.1 hmem
      have hji : j = i := hj
      subst hji
      obtain ⟨q', hq', hw'⟩ := (mem_taskWrites qs p c j v).1 hjv
      rw [hq] at hq'
      have : q' = qs.get ⟨j, h⟩ := (Option.some.injEq .. ▸ hq').symm
      subst this
      rw [hw] at hw'
      cases hw'

theorem processAnswers_length (qs : List String) (p : UserProfile)
    (c : Nat → String → Except String String) :
    (processAnswers qs p c).length = qs.length := by
  rw [processAnswers, applyWrites_length, List.length_replicate]

/-- Order-independence of the slot writes: because every slot is owned by
exactly one task, applying the writes in any interleaving order yields the same
array — the model's stand-in for race-freedom of the goroutine writes. -/
theorem applyWrites_perm (init : List Answer) (ws ws' : List (Nat × Answer))
    (hperm : ws.Perm ws') (hnd : (ws.map Prod.fst).Nodup) :
    applyWrites init ws = applyWrites init ws' := by
  have hnd' : (ws'.map Prod.fst).Nodup := ((hperm.map Prod.fst).nodup_iff).1 hnd
  apply List.ext_getElem?
  intro i
  by_cases hm : i ∈ ws.map Prod.fst
  · obtain ⟨⟨j, v⟩, hw, hj⟩ := List.mem_map.1 hm
    have hji : j = i := hj
    subst hji
    by_cases hi : j < init.length
    · rw [applyWrites_getElem?_of_mem _ _ j v hnd hw hi,
        applyWrites_getElem?_of_mem _ _ j v hnd' (hperm.mem_iff.1 hw) hi]
    · have h1 : (applyWrites init ws).length ≤ j := by
        rw [applyWrites_length]; exact Nat.le_of_not_lt hi
      have h2 : (applyWrites init ws').length ≤ j := by
        rw [applyWrites_length]; exact Nat.le_of_not_lt hi
      rw [List.getElem?_eq_none h1, List.getElem?_eq_none h2]
  · rw [applyWrites_getElem?_of_not_mem _ _ i hm,
      applyWrites_getElem?_of_not_mem _ _ i (fun hc => hm (((hperm.map Prod.fst).mem_iff).2 hc))]

/-!
## Completion Client, Gemini variant (`sendToAi`, ask_ai.go lines 65-124)

The HTTP layer is abstracted: `net` is what the network does if an outbound
call is issued, `unmarshal` is `json.Unmarshal` into `AiResponse`.  Per the
net/http contract, `client.Do` on a request built with
`http.NewRequestWithContext` checks the context before dialing: with an
already-expired context it returns `ctx.Err()` immediately, without issuing the
call.  The model returns a pair: whether an outbound call was issued, and the
`(string, error)` result.
-/

/-- One `parts` entry of the Go `AiResponse` candidate content. -/
structure AiResponsePart where
  text : String
deriving Repr, DecidableEq

/-- One `candidates` entry of the Go `AiResponse` (its `content.parts`). -/
structure AiCandidate where
  parts : List AiResponsePart
deriving Repr, DecidableEq

/-- Decoded Go struct `AiResponse { Candidates []... }`. -/
structure AiResponse where
  candidates : List AiCandidate
deriving Repr, DecidableEq

/-- Outcome of the HTTP round trip when a call is issued: a transport error
from `client.Do`, or a response with a status code and a body. -/
inductive HttpOutcome where
  | transportError (msg : String)
  | response (statusCode : Nat) (body : String)
deriving Repr, DecidableEq

def sendToAi (ctxExpired : Bool) (net : HttpOutcome)
    (unmarshal : String → Except String AiResponse) (question : String) :
    Bool × Except String String :=
  if ctxExpired then (false, Except.error "context deadline exceeded")
  else
    match net with
    | HttpOutcome.transportError m => (true, Except.error m)
    | HttpOutcome.response status body =>
      if status ≠ 200 then
        (true, Except.error ("error: request " ++ toString status ++ ": " ++ body))
      else
        (true,
          match unmarshal body with
          | Except.error e => Except.error e
          | Except.ok geminiResp =>
            match geminiResp.candidates with
            | [] => Except.error "no answer found"
            | c :: _ =>
              match c.parts with
              | [] => Except.error "no answer found"
              | p :: _ => Except.ok p.text)

/-!
## Completion Client, Bedrock variant (`sendToAi`, ask_ai.go lines 277-337)

This variant receives `ctx` as a parameter but passes `context.TODO()` — a
fresh, never-expiring context — to `client.InvokeModel` (line 313).
-/

/-- Decoded Go struct `ClaudeResponse { Completion string }`. -/
structure ClaudeResponse where
  completion : String
deriving Repr, DecidableEq

/-- Model of `bedrockruntime` `InvokeModel`: it honors the context it is
given — if that context is already expired it fails immediately without issuing
the call; otherwise it issues the call and returns the network's outcome
(`Except.ok` carries the raw response body). -/
def invokeModel (ctxExpired : Bool) (net : Except String String) :
    Bool × Except String String :=
  if ctxExpired then (false, Except.error "context canceled") else (true, net)

/-- Model of the Bedrock-variant `sendToAi`.  `ctxExpired` is the state of the
caller's `ctx`; `cfgLoad` the result of `config.LoadDefaultConfig` (static
credentials, no network); `unmarshalClaude` is `json.Unmarshal` into
`ClaudeResponse`.  Line 313 invokes the model under `context.TODO()` instead of
`ctx`, which the model renders by passing `false` (never expired) to
`invokeModel`. -/
def sendToAiBedrock (ctxExpired : Bool) (cfgLoad : Except String Unit)
    (net : Except String String)
    (unmarshalClaude : String → Except String ClaudeResponse) (question : String) :
    Bool × Except String String :=
  match cfgLoad with
  | Except.error e => (false, Except.error ("failed to load AWS config: " ++ e))
  | Except.ok _ =>
    match invokeModel false net with
    | (issued, Except.error e) => (issued, Except.error ("failed to invoke model: " ++ e))
    | (issued, Except.ok body) =>
      match unmarshalClaude body with
      | Except.error e => (issued, Except.error ("failed to unmarshal response: " ++ e))
      | Except.ok resp =>
        if resp.completion = "" then (issued, Except.error "no answer found")
        else (issued, Except.ok resp.completion)

/-!
## Timing model for the shared deadline

Durations and instants are naturals (seconds from the start of dispatch).  The
handler installs `ctx, cancel := context.WithTimeout(context.Background(),
30*time.Second)` (line 182) and blocks in `wg.Wait()` (line 211) until every
goroutine has finished.
-/

/-- The shared per-request timeout, `30*time.Second`, in seconds. -/
def requestTimeoutSeconds : Nat := 30

/-- Finish time of a task whose completion call carries the shared deadline
context (Gemini variant): the in-flight HTTP call is aborted when the deadline
elapses, so the task finishes at `min` of its natural duration and the
deadline. -/
def ctxBoundedFinish (deadline dur : Nat) : Nat := min dur deadline

/-- Finish time of a Bedrock-variant task: `InvokeModel` runs under
`context.TODO()`, which never expires, so the call runs for its full natural
duration regardless of the shared deadline. -/
def todoCtxFinish (deadline dur : Nat) : Nat := dur

/-- The instant `wg.Wait()` returns: when the last spawned task has finished. -/
def handlerReturnTime (finishTimes : List Nat) : Nat := finishTimes.foldr max 0

/-!
## Request handler (`processQuestionsWithAI`, Gemini variant, lines 131-219)

This is the handler registered on `/getAnswers` by main.go (which also
initializes the `apiKey` global that only this variant reads).  Collaborator
effects are parameters, consumed exactly where the Go code calls them.
-/

/-- Go struct `HtmlRequest { Html string }`, the decoded request body. -/
structure HtmlRequest where
  html : String
deriving Repr, DecidableEq

/-- The handler's observable HTTP response. -/
inductive HttpResponse where
  | optionsOk
  | httpError (status : Nat) (msg : String)
  | jsonAnswers (answers : List Answer)
deriving Repr, DecidableEq

/-- HTTP status code of a response: `w.WriteHeader(200)` for OPTIONS,
`http.Error` statuses, and the implicit 200 of writing the JSON body. -/
def HttpResponse.status : HttpResponse → Nat
  | HttpResponse.optionsOk => 200
  | HttpResponse.httpError s _ => s
  | HttpResponse.jsonAnswers _ => 200

/-- Model of the request handler: `tokenSub` is the result of
`getValueFromToken(r, "sub")`; `getUserProfile` the database lookup keyed by
user id; `decodeBody` the result of `json.NewDecoder(r.Body).Decode`;
`cleanHTMLContent` and `extractQuestions` the HTML utilities defined elsewhere
in the package; `complete` the outcome of each task's `sendToAi` call.  Returns
the response paired with the list of prompts dispatched to the completion
client (one `sendToAi` invocation per spawned task). -/
def processQuestionsWithAI
    (method : String)
    (tokenSub : Except String String)
    (getUserProfile : String → Except String UserProfile)
    (decodeBody : Except String HtmlRequest)
    (cleanHTMLContent : String → String)
    (extractQuestions : String → List String)
    (complete : Nat → String → Except String String) :
    HttpResponse × List String :=
  if method = "OPTIONS" then (HttpResponse.optionsOk, [])
  else
    match tokenSub with
    | Except.error _ =>
      (HttpResponse.httpError 401 "トークンからユーザーIDの取得に失敗しました", [])
    | Except.ok userID =>
      match getUserProfile userID with
      | Except.error _ =>
        (HttpResponse.httpError 500 "ユーザープロフィールの取得に失敗しました", [])
      | Except.ok profile =>
        match decodeBody with
        | Except.error _ => (HttpResponse.httpError 400 "Bad request", [])
        | Except.ok req =>
          let cleanHtml := cleanHTMLContent req.html
          let questions := extractQuestions cleanHtml
          if questions.length = 0 then
            (HttpResponse.httpError 400 "No questions found", [])
          else
            (HttpResponse.jsonAnswers (processAnswers questions profile complete),
              questions.map (generatePromptWithBio profile))

/-! ### Helper lemmas shared by the claim theorems -/

theorem processAnswers_of_ok (qs : List String) (p : UserProfile)
    (c : Nat → String → Except String String) (i : Nat) (h : i < qs.length) (t : String)
    (hc : c i (generatePromptWithBio p (qs.get ⟨i, h⟩)) = Except.ok t) :
    (processAnswers qs p c)[i]? = some ⟨qs.get ⟨i, h⟩, t⟩ := by
  rw [processAnswers_getElem? qs p c i h]
  simp only [List.get_eq_getElem] at hc ⊢
  simp [slotValue, taskWrite, hc]

theorem processAnswers_of_error (qs : List String) (p : UserProfile)
    (c : Nat → String → Except String String) (i : Nat) (h : i < qs.length) (e : String)
    (hc : c i (generatePromptWithBio p (qs.get ⟨i, h⟩)) = Except.error e) :
    (processAnswers qs p c)[i]? = some defaultAnswer := by
  rw [processAnswers_getElem? qs p c i h]
  simp only [List.get_eq_getElem] at hc
  simp [slotValue, taskWrite, hc, defaultAnswer]

theorem le_handlerReturnTime (l : List Nat) (t : Nat) (ht : t ∈ l) :
    t ≤ handlerReturnTime l := by
  induction l with
  | nil => cases ht
  | cons a rest ih =>
    show t ≤ max a (handlerReturnTime rest)
    rcases List.mem_cons.1 ht with h1 | h2
    · subst h1; exact Nat.le_max_left _ _
    · exact Nat.le_trans (ih h2) (Nat.le_max_right _ _)

/-- Concrete profile used in the concrete evaluations below. -/
def sampleProfile : UserProfile := ⟨"bio", "exp", "proj"⟩

end ESWriter

namespace ESWriter

/-!
## Claim theorems
-/

/-- C1 counterexample: one question "Name?" whose completion call fails.  The
goroutine for index 0 returns before writing its slot, so the serialized slot is
the zero value whose `question` field is `""`, not the extracted question
"Name?" — refuting "response[i].question == extractedQuestions[i] ... regardless
of whether the completion call for that index succeeded or failed". -/
theorem C1_counterexample :
    (processAnswers ["Name?"] sampleProfile fun _ _ => Except.error "transport error")[0]? =
      some { question := "", answer := "" } ∧ ("" : String) ≠ "Name?" :=
  ⟨rfl, by decide⟩

/-- C1 (amended): slot `i` of the response carries the `i`-th extracted question
in its `question` field whenever the completion call for index `i` succeeded;
when that call failed, the slot keeps the Go zero value, whose `question` field
is the empty string. -/
theorem C1_amended (qs : List String) (p : UserProfile)
    (c : Nat → String → Except String String) (i : Nat) (h : i < qs.length) :
    (∀ t, c i (generatePromptWithBio p (qs.get ⟨i, h⟩)) = Except.ok t →
      (processAnswers qs p c)[i]? = some ⟨qs.get ⟨i, h⟩, t⟩) ∧
    (∀ e, c i (generatePromptWithBio p (qs.get ⟨i, h⟩)) = Except.error e →
      (processAnswers qs p c)[i]? = some ⟨"", ""⟩) :=
  ⟨fun t hc => processAnswers_of_ok qs p c i h t hc,
   fun e hc => processAnswers_of_error qs p c i h e hc⟩

/-- C1 witness: with the single question "Name?" and a succeeding completion
call, slot 0 carries the question "Name?". -/
theorem C1_amended_witness :
    (processAnswers ["Name?"] sampleProfile fun _ _ => Except.ok "OK")[0]? =
      some ⟨"Name?", "OK"⟩ :=
  (C1_amended ["Name?"] sampleProfile (fun _ _ => Except.ok "OK") 0 (by decide)).1 "OK" rfl

/-- C2: for every request that passes auth, profile lookup and body decoding and
extracts at least one question, the handler responds with the JSON answer array
and its length equals the number of extracted questions. -/
theorem C2_response_length
    (method u : String) (p : UserProfile) (req : HtmlRequest)
    (tokenSub : Except String String)
    (getUserProfile : String → Except String UserProfile)
    (decodeBody : Except String HtmlRequest)
    (cleanHTMLContent : String → String) (extractQuestions : String → List String)
    (complete : Nat → String → Except String String)
    (hm : method ≠ "OPTIONS") (ht : tokenSub = Except.ok u)
    (hp : getUserProfile u = Except.ok p) (hd : decodeBody = Except.ok req)
    (hq : (extractQuestions (cleanHTMLContent req.html)).length ≠ 0) :
    ∃ answers,
      (processQuestionsWithAI method tokenSub getUserProfile decodeBody
          cleanHTMLContent extractQuestions complete).1 =
        HttpResponse.jsonAnswers answers ∧
      answers.length = (extractQuestions (cleanHTMLContent req.html)).length := by
  subst ht; subst hd
  refine ⟨processAnswers (extractQuestions (cleanHTMLContent req.html)) p complete, ?_, ?_⟩
  · simp [processQuestionsWithAI, hm, hp, hq]
  · exact processAnswers_length _ _ _

/-- C2 witness: a concrete request with one extracted question yields a
one-element answer array. -/
theorem C2_response_length_witness :
    ∃ answers,
      (processQuestionsWithAI "POST" (Except.ok "user1")
          (fun _ => Except.ok sampleProfile) (Except.ok ⟨"Name?"⟩)
          (fun s => s) (fun s => [s]) (fun _ _ => Except.ok "OK")).1 =
        HttpResponse.jsonAnswers answers ∧
      answers.length = ((fun (s : String) => [s]) ((fun (s : String) => s) "Name?")).length :=
  C2_response_length "POST" "user1" sampleProfile ⟨"Name?"⟩ (Except.ok "user1")
    (fun _ => Except.ok sampleProfile) (Except.ok ⟨"Name?"⟩) (fun s => s) (fun s => [s])
    (fun _ _ => Except.ok "OK") (by decide) rfl rfl rfl (by decide)

/-- C3: when the completion call fails for exactly index `k` and succeeds for
every other index, slot `k` ends with an empty answer string (the zero value)
and every other slot holds exactly the answer its own task produced — one
task's failure never alters a sibling slot. -/
theorem C3_single_failure_isolation (qs : List String) (p : UserProfile)
    (c : Nat → String → Except String String) (k : Nat) (hk : k < qs.length) (e : String)
    (hfail : c k (generatePromptWithBio p (qs.get ⟨k, hk⟩)) = Except.error e)
    (hsucc : ∀ j (hj : j < qs.length), j ≠ k →
      ∃ t, c j (generatePromptWithBio p (qs.get ⟨j, hj⟩)) = Except.ok t) :
    ((processAnswers qs p c)[k]?.map Answer.answer = some "") ∧
    (∀ j (hj : j < qs.length), j ≠ k → ∀ t,
      c j (generatePromptWithBio p (qs.get ⟨j, hj⟩)) = Except.ok t →
      (processAnswers qs p c)[j]? = some ⟨qs.get ⟨j, hj⟩, t⟩) := by
  refine ⟨?_, fun j hj _ t hc => processAnswers_of_ok qs p c j hj t hc⟩
  rw [processAnswers_of_error qs p c k hk e hfail]
  rfl

/-- C3 witness: two questions, the call for index 0 fails and the call for
index 1 succeeds; slot 0 serializes with an empty answer string. -/
theorem C3_single_failure_isolation_witness :
    (processAnswers ["Q0", "Q1"] sampleProfile
        fun i _ => if i = 0 then Except.error "boom" else Except.ok "OK")[0]?.map
      Answer.answer = some "" :=
  (C3_single_failure_isolation ["Q0", "Q1"] sampleProfile
    (fun i _ => if i = 0 then Except.error "boom" else Except.ok "OK") 0 (by decide)
    "boom" rfl
    (fun j _ hj => ⟨"OK", by
      match j, hj with
      | j + 1, _ => rfl⟩)).1

/-- C4: once a request reaches dispatch, the handler returns the aggregated
ResultSet with HTTP status 200 for every assignment of per-task completion
outcomes — no combination of individual task failures fails the batch — and
`wg.Wait()` returns no earlier than any spawned task's finish time (it blocks
until every task has finished). -/
theorem C4_unconditional_200
    (method u : String) (p : UserProfile) (req : HtmlRequest)
    (tokenSub : Except String String)
    (getUserProfile : String → Except String UserProfile)
    (decodeBody : Except String HtmlRequest)
    (cleanHTMLContent : String → String) (extractQuestions : String → List String)
    (complete : Nat → String → Except String String)
    (finishTimes : List Nat) (t : Nat)
    (hm : method ≠ "OPTIONS") (ht : tokenSub = Except.ok u)
    (hp : getUserProfile u = Except.ok p) (hd : decodeBody = Except.ok req)
    (hq : (extractQuestions (cleanHTMLContent req.html)).length ≠ 0)
    (htf : t ∈ finishTimes) :
    ((processQuestionsWithAI method tokenSub getUserProfile decodeBody
        cleanHTMLContent extractQuestions complete).1 =
      HttpResponse.jsonAnswers
        (processAnswers (extractQuestions (cleanHTMLContent req.html)) p complete)) ∧
    ((processQuestionsWithAI method tokenSub getUserProfile decodeBody
        cleanHTMLContent extractQuestions complete).1.status = 200) ∧
    t ≤ handlerReturnTime finishTimes := by
  subst ht; subst hd
  have hresp : (processQuestionsWithAI method (Except.ok u) getUserProfile
      (Except.ok req) cleanHTMLContent extractQuestions complete).1 =
      HttpResponse.jsonAnswers
        (processAnswers (extractQuestions (cleanHTMLContent req.html)) p complete) := by
    simp [processQuestionsWithAI, hm, hp, hq]
  exact ⟨hresp, by rw [hresp]; rfl, le_handlerReturnTime finishTimes t htf⟩

/-- C4 witness: a concrete dispatched request whose only completion call fails
still yields status 200, and a task finishing at second 60 bounds the join from
below. -/
theorem C4_unconditional_200_witness :
    ((processQuestionsWithAI "POST" (Except.ok "user1")
        (fun _ => Except.ok sampleProfile) (Except.ok ⟨"Name?"⟩)
        (fun s => s) (fun s => [s]) (fun _ _ => Except.error "boom")).1 =
      HttpResponse.jsonAnswers
        (processAnswers ((fun (s : String) => [s]) ((fun (s : String) => s) "Name?"))
          sampleProfile (fun _ _ => Except.error "boom"))) ∧
    ((processQuestionsWithAI "POST" (Except.ok "user1")
        (fun _ => Except.ok sampleProfile) (Except.ok ⟨"Name?"⟩)
        (fun s => s) (fun s => [s]) (fun _ _ => Except.error "boom")).1.status = 200) ∧
    (60 : Nat) ≤ handlerReturnTime [5, 60] :=
  C4_unconditional_200 "POST" "user1" sampleProfile ⟨"Name?"⟩ (Except.ok "user1")
    (fun _ => Except.ok sampleProfile) (Except.ok ⟨"Name?"⟩) (fun s => s) (fun s => [s])
    (fun _ _ => Except.error "boom") [5, 60] 60 (by decide) rfl rfl rfl (by decide)
    (by simp)

/-- C5: a request whose cleaned HTML yields zero extracted questions is answered
with HTTP 400 ("No questions found") and dispatches zero prompts to the
completion client. -/
theorem C5_no_questions_400
    (method u : String) (req : HtmlRequest)
    (tokenSub : Except String String)
    (getUserProfile : String → Except String UserProfile)
    (decodeBody : Except String HtmlRequest)
    (cleanHTMLContent : String → String) (extractQuestions : String → List String)
    (complete : Nat → String → Except String String) (p : UserProfile)
    (hm : method ≠ "OPTIONS") (ht : tokenSub = Except.ok u)
    (hp : getUserProfile u = Except.ok p) (hd : decodeBody = Except.ok req)
    (hq : extractQuestions (cleanHTMLContent req.html) = []) :
    processQuestionsWithAI method tokenSub getUserProfile decodeBody
        cleanHTMLContent extractQuestions complete =
      (HttpResponse.httpError 400 "No questions found", []) := by
  subst ht; subst hd
  simp [processQuestionsWithAI, hm, hp, hq]

/-- C5 witness: a concrete request whose extractor finds nothing yields the 400
response and an empty dispatch list. -/
theorem C5_no_questions_400_witness :
    processQuestionsWithAI "POST" (Except.ok "user1")
        (fun _ => Except.ok sampleProfile) (Except.ok ⟨"<p>no forms</p>"⟩)
        (fun s => s) (fun _ => []) (fun _ _ => Except.ok "OK") =
      (HttpResponse.httpError 400 "No questions found", []) :=
  C5_no_questions_400 "POST" "user1" ⟨"<p>no forms</p>"⟩ (Except.ok "user1")
    (fun _ => Except.ok sampleProfile) (Except.ok ⟨"<p>no forms</p>"⟩)
    (fun s => s) (fun _ => []) (fun _ _ => Except.ok "OK") sampleProfile
    (by decide) rfl rfl rfl rfl

/-- C6, evaluated at the failing input: invoked with an already-expired deadline
context, the Gemini-variant client fails immediately and issues no outbound
call, but the Bedrock-variant client still issues its model invocation and
succeeds, because line 313 passes `context.TODO()` to `InvokeModel` instead of
the caller's `ctx` — so the client does not honor the deadline context on every
invocation. -/
theorem C6_expired_context_eval :
    (sendToAi true (HttpOutcome.transportError "unreachable")
        (fun _ => Except.error "undecoded") "Q" =
      (false, Except.error "context deadline exceeded")) ∧
    (sendToAiBedrock true (Except.ok ())
        (Except.ok "\x7brawBody\x7d")
        (fun _ => Except.ok ⟨"generated text"⟩) "Q" =
      (true, Except.ok "generated text")) :=
  ⟨rfl, rfl⟩

/-- C7, evaluated at the failing input: with the 30-second shared deadline and
every completion call naturally taking 60 seconds, tasks whose calls carry the
shared context finish at the deadline and leave every answer empty, so
`wg.Wait()` returns at second 30; but a Bedrock task runs its call under
`context.TODO()`, keeping the handler blocked until second 60 — past the shared
deadline, contradicting "the system never blocks past the shared deadline". -/
theorem C7_deadline_eval :
    (handlerReturnTime [ctxBoundedFinish requestTimeoutSeconds 60,
        ctxBoundedFinish requestTimeoutSeconds 60] = requestTimeoutSeconds) ∧
    (processAnswers ["Q0", "Q1"] sampleProfile
        (fun _ prompt =>
          (sendToAi true (HttpOutcome.transportError "never reached")
            (fun _ => Except.error "never reached") prompt).2) =
      [defaultAnswer, defaultAnswer]) ∧
    (handlerReturnTime [todoCtxFinish requestTimeoutSeconds 60,
        todoCtxFinish requestTimeoutSeconds 60] = 60) ∧
    requestTimeoutSeconds < 60 :=
  ⟨rfl, rfl, rfl, by decide⟩

/-- C8: on the answering endpoint, identity-resolution failure yields 401 and
profile-lookup failure yields 500, in both cases with an empty dispatch list and
a result that does not depend on the body decoder, the HTML utilities or the
completion client — the request aborts before extraction and dispatch, with no
partial-profile fallback. -/
theorem C8_auth_profile_errors
    (method : String)
    (tokenSub : Except String String)
    (getUserProfile : String → Except String UserProfile)
    (decodeBody : Except String HtmlRequest)
    (cleanHTMLContent : String → String) (extractQuestions : String → List String)
    (complete : Nat → String → Except String String)
    (hm : method ≠ "OPTIONS") :
    (∀ e, tokenSub = Except.error e →
      processQuestionsWithAI method tokenSub getUserProfile decodeBody
          cleanHTMLContent extractQuestions complete =
        (HttpResponse.httpError 401 "トークンからユーザーIDの取得に失敗しました", [])) ∧
    (∀ u e, tokenSub = Except.ok u → getUserProfile u = Except.error e →
      processQuestionsWithAI method tokenSub getUserProfile decodeBody
          cleanHTMLContent extractQuestions complete =
        (HttpResponse.httpError 500 "ユーザープロフィールの取得に失敗しました", [])) := by
  constructor
  · intro e ht
    subst ht
    simp [processQuestionsWithAI, hm]
  · intro u e ht hp
    subst ht
    simp [processQuestionsWithAI, hm, hp]

/-- C8 witness: a concrete request with an unresolvable token gets 401 and an
empty dispatch list. -/
theorem C8_auth_profile_errors_witness :
    processQuestionsWithAI "POST" (Except.error "invalid token")
        (fun _ => Except.ok sampleProfile) (Except.ok ⟨"<form></form>"⟩)
        (fun s => s) (fun s => [s]) (fun _ _ => Except.ok "OK") =
      (HttpResponse.httpError 401 "トークンからユーザーIDの取得に失敗しました", []) :=
  (C8_auth_profile_errors "POST" (Except.error "invalid token")
    (fun _ => Except.ok sampleProfile) (Except.ok ⟨"<form></form>"⟩)
    (fun s => s) (fun s => [s]) (fun _ _ => Except.ok "OK") (by decide)).1
    "invalid token" rfl

/-- C9: slot ownership is exclusive: every recorded write targets a valid slot,
the written slot indices are pairwise distinct (each slot is written at most
once, and distinct tasks write distinct slots since a task only ever writes its
own index), applying the writes in any interleaving order produces the same
array, and every slot of the final array is either the empty default or exactly
its own task's completion text — never an intermediate or duplicated state. -/
theorem C9_slot_exclusivity (qs : List String) (p : UserProfile)
    (c : Nat → String → Except String String) :
    (∀ w ∈ taskWrites qs p c, w.1 < qs.length) ∧
    ((taskWrites qs p c).map Prod.fst).Nodup ∧
    (∀ ws', (taskWrites qs p c).Perm ws' →
      applyWrites (List.replicate qs.length defaultAnswer) ws' = processAnswers qs p c) ∧
    (∀ i (h : i < qs.length),
      (processAnswers qs p c)[i]? = some defaultAnswer ∨
      ∃ t, c i (generatePromptWithBio p (qs.get ⟨i, h⟩)) = Except.ok t ∧
        (processAnswers qs p c)[i]? = some ⟨qs.get ⟨i, h⟩, t⟩) := by
  refine ⟨?_, taskWrites_keys_nodup qs p c, ?_, ?_⟩
  · rintro ⟨i, a⟩ hw
    obtain ⟨q, hq, -⟩ := (mem_taskWrites qs p c i a).1 hw
    exact (List.getElem?_eq_some.1 hq).1
  · intro ws' hperm
    exact (applyWrites_perm _ _ _ hperm (taskWrites_keys_nodup qs p c)).symm
  · intro i h
    cases hc : c i (generatePromptWithBio p (qs.get ⟨i, h⟩)) with
    | error e => exact Or.inl (processAnswers_of_error qs p c i h e hc)
    | ok t => exact Or.inr ⟨t, rfl, processAnswers_of_ok qs p c i h t hc⟩

/-- C9 witness: on a concrete two-question run with one failure, the recorded
write indices are duplicate-free. -/
theorem C9_slot_exclusivity_witness :
    ((taskWrites ["Q0", "Q1"] sampleProfile
        fun i _ => if i = 0 then Except.error "boom" else Except.ok "OK").map
      Prod.fst).Nodup :=
  (C9_slot_exclusivity ["Q0", "Q1"] sampleProfile
    fun i _ => if i = 0 then Except.error "boom" else Except.ok "OK").2.1

/-- C10: request-level checks run in a fixed order — token resolution, then
profile lookup, then body decoding: a token failure yields 401 whatever the
other collaborators return; a request failing profile lookup yields 500 even if
its body is malformed; and the 400 "Bad request" for a malformed body can only
arise once token resolution and profile lookup both succeeded. -/
theorem C10_error_precedence
    (method : String)
    (tokenSub : Except String String)
    (getUserProfile : String → Except String UserProfile)
    (decodeBody : Except String HtmlRequest)
    (cleanHTMLContent : String → String) (extractQuestions : String → List String)
    (complete : Nat → String → Except String String)
    (hm : method ≠ "OPTIONS") :
    (∀ e, tokenSub = Except.error e →
      (processQuestionsWithAI method tokenSub getUserProfile decodeBody
          cleanHTMLContent extractQuestions complete).1.status = 401) ∧
    (∀ u ep eb, tokenSub = Except.ok u → getUserProfile u = Except.error ep →
      decodeBody = Except.error eb →
      (processQuestionsWithAI method tokenSub getUserProfile decodeBody
          cleanHTMLContent extractQuestions complete).1.status = 500) ∧
    (∀ eb, decodeBody = Except.error eb →
      (processQuestionsWithAI method tokenSub getUserProfile decodeBody
          cleanHTMLContent extractQuestions complete).1 =
        HttpResponse.httpError 400 "Bad request" →
      ∃ u p, tokenSub = Except.ok u ∧ getUserProfile u = Except.ok p) := by
  refine ⟨?_, ?_, ?_⟩
  · intro e ht
    subst ht
    simp [processQuestionsWithAI, hm, HttpResponse.status]
  · intro u ep eb ht hp hd
    subst ht; subst hd
    simp [processQuestionsWithAI, hm, hp, HttpResponse.status]
  · intro eb hd hresp
    subst hd
    cases ht : tokenSub with
    | error e =>
      rw [ht] at hresp
      simp [processQuestionsWithAI, hm] at hresp
    | ok u =>
      cases hp : getUserProfile u with
      | error ep =>
        rw [ht] at hresp
        simp [processQuestionsWithAI, hm, hp] at hresp
      | ok p => exact ⟨u, p, rfl, hp⟩

/-- C10 witness: a request that both fails profile lookup and carries a
malformed body receives 500, not 400. -/
theorem C10_error_precedence_witness :
    (processQuestionsWithAI "POST" (Except.ok "user1")
        (fun _ => Except.error "no such row") (Except.error "invalid JSON")
        (fun s => s) (fun s => [s]) (fun _ _ => Except.ok "OK")).1.status = 500 :=
  (C10_error_precedence "POST" (Except.ok "user1") (fun _ => Except.error "no such row")
    (Except.error "invalid JSON") (fun s => s) (fun s => [s]) (fun _ _ => Except.ok "OK")
    (by decide)).2.1 "user1" "no such row" "invalid JSON" rfl rfl rfl

end ESWriter
